import Mathlib

/-!
# Verification of the captcha access gate (`src/server.js` and variants)

Shallow embedding of the captcha server's core logic:

* `captchaUtils.generateCaptcha` / `captchaUtils.validateWithHash`
  (`src/server.js` lines 88–139),
* the verification state machine: `captchaMiddleware` (143–165),
  `preventVerifyAccessIfVerified` + `GET /verify` (168–525),
  `POST /process-verify` (528–561),
* the `originalUrl` capture middleware (564–569) and the
  exempt-path gate (572–584),
* the fixed-window rate limiter (40–67),
* the variant implementations in `src/unnamed/part_001` (plaintext-answer
  session gate) and `src/unnamed/part_002` (full-alphabet generator).

Timestamps are modelled as `Int` (JS `Date.now()` arithmetic on exact
integers).  JS truthiness of session fields is modelled explicitly:
a missing field is `none`, `0` and `""` are falsy.  The SHA-256 digest is
modelled as an abstract function parameter `hashFn : String → String`
(the code's `crypto.createHash("sha256")...digest("hex")`); theorems that
need collision-freeness or non-emptiness of digests take them as
hypotheses, discharged at concrete injective instances in witnesses.
Randomness (`Math.random()`) is modelled by explicit draw parameters:
`Math.floor(Math.random() * n)` becomes `draw % n` for an arbitrary
`draw : Nat`, which ranges over exactly the values `0 .. n-1` the code
can produce.
-/

namespace Captcha

/-- Models JS `s.toLowerCase()` for ASCII data, as a structurally recursive map
over the character list (semantically equal to `String.toLower`, see
`lower_eq_toLower`; the list form lets the kernel evaluate it). -/
def lower (s : String) : String := ⟨s.data.map Char.toLower⟩

/-- Models JS `s.toUpperCase()` for ASCII data (see `upper_eq_toUpper`). -/
def upper (s : String) : String := ⟨s.data.map Char.toUpper⟩

/-- Truthiness (JS) of an optional string session field:
`undefined` and `""` are falsy. -/
def truthyStr : Option String → Bool
  | some s => s ≠ ""
  | none => false

/-- Truthiness (JS) of an optional numeric session field:
`undefined` and `0` are falsy. -/
def truthyTime : Option Int → Bool
  | some t => t ≠ 0
  | none => false

/-- Models JS `x || d` for an optional string (empty string falls back to `d`),
as in `req.session.originalUrl || "/"` (server.js line 552). -/
def orElseStr (o : Option String) (d : String) : String :=
  match o with
  | some s => if s = "" then d else s
  | none => d

/-- Models JS `req.session.captchaGeneratedAt || 0` (server.js line 531):
a missing timestamp defaults to `0` (and `0` stays `0`). -/
def orZero (o : Option Int) : Int :=
  match o with
  | some t => t
  | none => 0

/-- The session record carried by `express-session`, restricted to the
fields the gate reads and writes (spec §6).  A deleted / never-set field
is `none`; `captchaPassed` is only ever set to `true` or deleted, so it
is a `Bool` with `false` for "absent". -/
structure Session where
  captchaPassed : Bool := false
  captchaPassedAt : Option Int := none
  captchaHash : Option String := none
  captchaGeneratedAt : Option Int := none
  captchaError : Option String := none
  originalUrl : Option String := none
  deriving Repr, DecidableEq

/-- The responses the modelled handlers can emit. -/
inductive Response where
  /-- `next()`: the request passes through to the protected content. -/
  | next : Response
  /-- `res.redirect(path)`. -/
  | redirect : String → Response
  /-- the challenge page is rendered (`res.send(...)` of the form). -/
  | page : Response
  deriving Repr, DecidableEq

/-! ## Challenge generation and validation (`captchaUtils`, server.js 82–140) -/

/-- The constant `letters` (server.js line 90): lowercase alphabet minus `i`, `l`, `o`. -/
def letters : String := "abcdefghjkmnpqrstuvwxyz"

/-- The constant `numbers` (server.js line 91): digits minus `0`, `1`. -/
def numbers : String := "23456789"

/-- The constant `allChars = letters + letters.toUpperCase() + numbers`
(server.js line 92); `upper` models `toUpperCase`. -/
def allChars : String := letters ++ upper letters ++ numbers

/-- Result of `generateCaptcha`: the answer text and its digest
(the HTML `display` string is presentation and not modelled). -/
structure Challenge where
  answer : String
  hash : String
  deriving Repr, DecidableEq

/-- Models `captchaUtils.generateCaptcha` (server.js lines 88–126).
`lenDraw % 3` models `Math.floor(Math.random() * 3)` and
`idxDraw i % allChars.length` models the per-position
`Math.floor(Math.random() * allChars.length)`; the default `'a'` of
`getD` is never reached since the index is reduced mod the length. -/
def generateCaptcha (hashFn : String → String) (lenDraw : Nat)
    (idxDraw : Nat → Nat) : Challenge :=
  let length := lenDraw % 3 + 5
  let captchaText : String :=
    ⟨(List.range length).map fun i => allChars.data.getD (idxDraw i % allChars.length) 'a'⟩
  { answer := captchaText, hash := hashFn (lower captchaText) }

/-- Models `captchaUtils.validateWithHash` (server.js lines 134–139):
fails closed on falsy input or falsy stored hash, else compares
`hashFn(lowercase(userInput))` with the stored digest. -/
def validateWithHash (hashFn : String → String)
    (userInput hash : Option String) : Bool :=
  if !truthyStr userInput || !truthyStr hash then false
  else hashFn (lower (userInput.getD "")) == hash.getD ""

/-- Reference definition of the validator from the spec (§4.2):
`true` iff both inputs are non-empty and `hash(lowercase(userInput))`
equals `secretDigest`. -/
def validate_spec (hashFn : String → String)
    (userInput secretDigest : Option String) : Bool :=
  match userInput, secretDigest with
  | some u, some d => u != "" && d != "" && hashFn (lower u) == d
  | _, _ => false

/-! ## The access-gate state machine (server.js 143–584) -/

/-- The `maxCaptchaAge` of the verified marker: 1 hour
(server.js lines 152 and 177). -/
def verifiedTTL : Int := 60 * 60 * 1000

/-- The `maxCaptchaAge` of a pending challenge: 2 minutes
(server.js line 535). -/
def challengeTTL : Int := 2 * 60 * 1000

/-- Models `captchaMiddleware` (server.js lines 143–165): a verified, fresh
session passes through; an expired verified session has its marker
deleted; everything else is redirected to `/verify`. -/
def captchaMiddleware (now : Int) (s : Session) : Session × Response :=
  if s.captchaPassed && truthyTime s.captchaPassedAt then
    if now - orZero s.captchaPassedAt < verifiedTTL then
      (s, Response.next)
    else
      ({ s with captchaPassed := false, captchaPassedAt := none },
       Response.redirect "/verify")
  else
    (s, Response.redirect "/verify")

/-- Models `GET /verify` behind `preventVerifyAccessIfVerified`
(server.js lines 168–199 and 524): a verified, fresh session is
redirected to `/`; otherwise a new challenge is generated, only its
digest and issuance time are stored, the page is sent and the error
flag is cleared.  Note the expired-verified case falls through to
issuance *without* clearing `captchaPassed` / `captchaPassedAt`. -/
def getVerify (hashFn : String → String) (now : Int) (lenDraw : Nat)
    (idxDraw : Nat → Nat) (s : Session) : Session × Response :=
  if s.captchaPassed && truthyTime s.captchaPassedAt
      && decide (now - orZero s.captchaPassedAt < verifiedTTL) then
    (s, Response.redirect "/")
  else
    let captcha := generateCaptcha hashFn lenDraw idxDraw
    ({ s with captchaHash := some captcha.hash,
              captchaGeneratedAt := some now,
              captchaError := none },
     Response.page)

/-- Error message of the expired branch (server.js line 538). -/
def expiredMsg : String := "Captcha expired. Please try again."

/-- Error message of the mismatch branch (server.js line 558). -/
def incorrectMsg : String := "Incorrect captcha. Please try again."

/-- Models `POST /process-verify` (server.js lines 528–561).  Expiry is checked
first with `generatedAt` defaulting to `0`; on success the verified
marker is set, the challenge data and `originalUrl` are deleted and the
response redirects to the stored original URL (or `/`); both failure
branches only set `captchaError` and redirect back to `/verify`. -/
def processVerify (hashFn : String → String) (now : Int)
    (userInput : Option String) (s : Session) : Session × Response :=
  let generatedAt := orZero s.captchaGeneratedAt
  if now - generatedAt > challengeTTL then
    ({ s with captchaError := some expiredMsg }, Response.redirect "/verify")
  else if validateWithHash hashFn userInput s.captchaHash then
    let redirectTo := orElseStr s.originalUrl "/"
    ({ s with captchaPassed := true, captchaPassedAt := some now,
              captchaHash := none, captchaGeneratedAt := none,
              originalUrl := none },
     Response.redirect redirectTo)
  else
    ({ s with captchaError := some incorrectMsg }, Response.redirect "/verify")

/-- The `originalUrl` capture middleware (server.js lines 564–569):
for a session without the passed flag, any path other than `/verify`
and `/process-verify` is captured into `originalUrl`. -/
def captureOriginalUrl (path originalUrl : String) (s : Session) : Session :=
  if !s.captchaPassed && path ≠ "/verify" && path ≠ "/process-verify" then
    { s with originalUrl := some originalUrl }
  else s

/-- The resource-file pattern `\.(ico|png|jpg|jpeg|gif|svg|css|js)$`
(server.js line 577). -/
def isResourcePath (p : String) : Bool :=
  [".ico", ".png", ".jpg", ".jpeg", ".gif", ".svg", ".css", ".js"].any
    fun ext => ext.data.isSuffixOf p.data

/-- The exempt-path gate (server.js lines 572–584): `/verify`,
`/process-verify` and resource files skip the captcha middleware. -/
def exemptGate (now : Int) (path : String) (s : Session) : Session × Response :=
  if path = "/verify" || path = "/process-verify" || isResourcePath path then
    (s, Response.next)
  else
    captchaMiddleware now s

/-! ## Fixed-window rate limiter (server.js lines 40–67) -/

/-- One per-client entry of the `ipRequests` map. -/
structure RateWindow where
  count : Nat
  resetAt : Int
  deriving Repr, DecidableEq

/-- One `check` of the rate-limiting middleware for a single client's
window (server.js lines 44–67), parameterised by the configured
`MAX_REQUESTS` and `WINDOW_MS`.  Returns the updated window and whether
the request is allowed (`false` is the `429` rejection). -/
def rateCheck (maxRequests : Nat) (windowMs : Int) (now : Int)
    (w : Option RateWindow) : Option RateWindow × Bool :=
  match w with
  | none => (some { count := 1, resetAt := now + windowMs }, true)
  | some data =>
    if now > data.resetAt then
      (some { count := 1, resetAt := now + windowMs }, true)
    else if data.count ≥ maxRequests then
      (some data, false)
    else
      (some { data with count := data.count + 1 }, true)

/-- Runs `rateCheck` over a sequence of request times, collecting the
allow/reject decisions. -/
def runChecks (maxRequests : Nat) (windowMs : Int) (times : List Int)
    (w : Option RateWindow) : Option RateWindow × List Bool :=
  match times with
  | [] => (w, [])
  | t :: ts =>
    let (w', b) := rateCheck maxRequests windowMs t w
    let (w'', bs) := runChecks maxRequests windowMs ts w'
    (w'', b :: bs)

/-- The `MAX_REQUESTS` constant of `src/server.js` line 41. -/
def MAX_REQUESTS : Nat := 500000

/-- The `WINDOW_MS` constant of `src/server.js` line 42. -/
def WINDOW_MS : Int := 10 * 60 * 60 * 1000

end Captcha

namespace CaptchaV1

/-!
## The variant implementation `src/unnamed/part_001` / `part_002`

`part_002` is the `captcha-utils.js` module the variant server imports:
its `generateCaptcha` draws 5–6 characters from the *full* alphabet
`a-z`, `A-Z`, `0-9`, and its `validate` compares plaintext strings.
`part_001`'s `GET /captcha` route stores the plaintext answer in
`req.session.captchaAnswer`.
-/

/-- The `allChars` of `part_002` lines 7–9: full alphabet including the
visually ambiguous `0`, `O`, `1`, `l`, `I`. -/
def allChars : String :=
  "abcdefghijklmnopqrstuvwxyz" ++ Captcha.upper "abcdefghijklmnopqrstuvwxyz"
    ++ "0123456789"

/-- Models `generateCaptcha` of `part_002` lines 5–38: 5–6 characters
(`Math.floor(Math.random() * 2) + 5`), each drawn from `allChars`.
Only the answer is returned (the digest-free variant). -/
def generateCaptcha (lenDraw : Nat) (idxDraw : Nat → Nat) : String :=
  let length := lenDraw % 2 + 5
  ⟨(List.range length).map fun i => allChars.data.getD (idxDraw i % allChars.length) 'a'⟩

/-- The session of the variant server (`part_001`), which keeps the
*plaintext* answer. -/
structure Session where
  captchaPassed : Bool := false
  captchaAnswer : Option String := none
  captchaError : Option String := none
  deriving Repr, DecidableEq

/-- Models `GET /captcha` of `part_001` lines 42–127: generates a challenge and
stores its plaintext answer in `req.session.captchaAnswer`, then clears
the error flag after sending the page. -/
def getCaptcha (lenDraw : Nat) (idxDraw : Nat → Nat) (s : Session) : Session :=
  let answer := generateCaptcha lenDraw idxDraw
  { s with captchaAnswer := some answer, captchaError := none }

end CaptchaV1

namespace Captcha

/-- The spec's invariant (§3): a verified session carries its timestamp
and holds no Challenge data. -/
def Inv (s : Session) : Prop :=
  s.captchaPassed = true →
    s.captchaPassedAt.isSome ∧ s.captchaHash = none ∧ s.captchaGeneratedAt = none

instance (s : Session) : Decidable (Inv s) := by
  unfold Inv
  infer_instance

/-- A concrete injective digest function with non-empty outputs, used to
instantiate the abstract `hashFn` in witnesses and counterexamples. -/
def hashDemo (s : String) : String := "#" ++ s

end Captcha

/-! ## Basic lemmas about the embedding's building blocks -/

namespace Captcha

theorem lower_eq_toLower (s : String) : lower s = s.toLower :=
  (String.map_eq Char.toLower s).symm

theorem upper_eq_toUpper (s : String) : upper s = s.toUpper :=
  (String.map_eq Char.toUpper s).symm

theorem char_ofNat_toNat_valid (n : Nat) (h : n.isValidChar) :
    (Char.ofNat n).toNat = n := by
  simp [Char.ofNat, h, Char.ofNatAux, Char.toNat, UInt32.toNat, BitVec.toNat_ofNatLt]

/-- ASCII lower-casing is idempotent. -/
theorem char_toLower_idem (c : Char) : c.toLower.toLower = c.toLower := by
  unfold Char.toLower
  by_cases h : c.toNat ≥ 65 ∧ c.toNat ≤ 90
  · simp only [if_pos h]
    have hv : (c.toNat + 32).isValidChar := by
      left
      omega
    rw [char_ofNat_toNat_valid _ hv, if_neg (by omega)]
  · simp only [if_neg h]

theorem lower_idem (s : String) : lower (lower s) = lower s := by
  unfold lower
  simp only [List.map_map]
  exact congrArg String.mk (List.map_congr_left fun c _ => char_toLower_idem c)

theorem lower_ne_empty (s : String) (h : s ≠ "") : lower s ≠ "" := by
  intro he
  apply h
  have h' := congrArg String.data he
  simp only [lower] at h'
  apply String.ext
  simpa using h'

theorem hashDemo_inj : Function.Injective hashDemo := by
  intro a b h
  apply String.ext
  have h' := congrArg String.data h
  simpa [hashDemo, String.data_append] using h'

theorem hashDemo_ne_empty (s : String) : hashDemo s ≠ "" := by
  intro h
  have h' := congrArg String.data h
  simp [hashDemo, String.data_append] at h'

/-- An in-bounds-safe `getD` stays in the list when the default is in it. -/
theorem getD_mem {l : List Char} {k : Nat} {d : Char} (hd : d ∈ l) :
    l.getD k d ∈ l := by
  by_cases hk : k < l.length
  · rw [List.getD_eq_getElem l d hk]
    exact List.getElem_mem hk
  · rw [List.getD_eq_default l d (Nat.le_of_not_lt hk)]
    exact hd

end Captcha

namespace Captcha

/-- C4: `validateWithHash` coincides with the spec's reference validator:
it returns `true` iff both inputs are non-empty and the digest of the
lowercased input equals the stored digest; consequently (for a
collision-free digest with non-empty outputs) every non-empty lowercased
answer validates against its own digest, any two answers differing
beyond case do not cross-validate, and empty or absent inputs always
fail. -/
theorem validateWithHash_correct (hashFn : String → String)
    (hinj : Function.Injective hashFn) (hne : ∀ s, hashFn s ≠ "") :
    (∀ u h, validateWithHash hashFn u h = validate_spec hashFn u h)
    ∧ (∀ a : String, a ≠ "" →
        validateWithHash hashFn (some (lower a)) (some (hashFn (lower a))) = true)
    ∧ (∀ a₁ a₂ : String, lower a₁ ≠ lower a₂ →
        validateWithHash hashFn (some a₁) (some (hashFn (lower a₂))) = false)
    ∧ (∀ h, validateWithHash hashFn none h = false)
    ∧ (∀ u, validateWithHash hashFn u none = false)
    ∧ (∀ h, validateWithHash hashFn (some "") h = false)
    ∧ (∀ u, validateWithHash hashFn u (some "") = false) := by
  refine ⟨?_, ?_, ?_, ?_, ?_, ?_, ?_⟩
  · intro u h
    cases u with
    | none => rfl
    | some u =>
      cases h with
      | none => simp [validateWithHash, validate_spec, truthyStr]
      | some d => by_cases hu : u = "" <;> by_cases hd : d = "" <;>
          simp [validateWithHash, validate_spec, truthyStr, hu, hd]
  · intro a ha
    have hla := lower_ne_empty a ha
    simp [validateWithHash, truthyStr, hla, hne (lower a), lower_idem]
  · intro a₁ a₂ h12
    by_cases h1 : a₁ = ""
    · simp [validateWithHash, truthyStr, h1]
    · have : hashFn (lower a₁) ≠ hashFn (lower a₂) := fun he => h12 (hinj he)
      simp [validateWithHash, truthyStr, h1, hne (lower a₂), this]
  · intro h
    rfl
  · intro u
    cases u <;> simp [validateWithHash, truthyStr]
  · intro h
    simp [validateWithHash, truthyStr]
  · intro u
    cases u <;> simp [validateWithHash, truthyStr]

/-- Witness for C4 at the concrete injective digest `hashDemo`. -/
theorem validateWithHash_correct_witness :
    validateWithHash hashDemo (some (lower "Abc")) (some (hashDemo (lower "Abc"))) = true
    ∧ validateWithHash hashDemo (some "xyz") (some (hashDemo (lower "Abc"))) = false
    ∧ validateWithHash hashDemo none (some "#abc") = false :=
  ⟨(validateWithHash_correct hashDemo hashDemo_inj hashDemo_ne_empty).2.1 "Abc" (by decide),
   (validateWithHash_correct hashDemo hashDemo_inj hashDemo_ne_empty).2.2.1 "xyz" "Abc"
     (by decide),
   (validateWithHash_correct hashDemo hashDemo_inj hashDemo_ne_empty).2.2.2.1 (some "#abc")⟩

end Captcha

namespace Captcha

/-- C6: a submission older than `challengeTTL` is rejected with the
expired error and a redirect to `/verify`, whatever the submitted
answer — the verified marker is not set. -/
theorem processVerify_expired_rejects (hashFn : String → String) (now : Int)
    (userInput : Option String) (s : Session)
    (hexp : now - orZero s.captchaGeneratedAt > challengeTTL) :
    (processVerify hashFn now userInput s).1.captchaPassed = s.captchaPassed
    ∧ (processVerify hashFn now userInput s).1.captchaPassedAt = s.captchaPassedAt
    ∧ (processVerify hashFn now userInput s).1.captchaError = some expiredMsg
    ∧ (processVerify hashFn now userInput s).2 = Response.redirect "/verify" := by
  simp [processVerify, hexp]

/-- Witness for C6: one time unit past the TTL, with a digest-matching
answer, the submission is still rejected as expired. -/
theorem processVerify_expired_rejects_witness :
    validateWithHash hashDemo (some "ABC")
      (Session.captchaHash { captchaHash := some (hashDemo "abc"),
                             captchaGeneratedAt := some 0 }) = true
    ∧ (processVerify hashDemo (challengeTTL + 1) (some "ABC")
        { captchaHash := some (hashDemo "abc"),
          captchaGeneratedAt := some 0 }).1.captchaPassed = false
    ∧ (processVerify hashDemo (challengeTTL + 1) (some "ABC")
        { captchaHash := some (hashDemo "abc"),
          captchaGeneratedAt := some 0 }).1.captchaError = some expiredMsg
    ∧ (processVerify hashDemo (challengeTTL + 1) (some "ABC")
        { captchaHash := some (hashDemo "abc"),
          captchaGeneratedAt := some 0 }).2 = Response.redirect "/verify" := by
  have h := processVerify_expired_rejects hashDemo (challengeTTL + 1) (some "ABC")
    { captchaHash := some (hashDemo "abc"), captchaGeneratedAt := some 0 } (by decide)
  exact ⟨by decide, h.1, h.2.2.1, h.2.2.2⟩

/-- C10: a submission on a session that never received a challenge
(`captchaGeneratedAt` absent) takes the expired branch (`issuedAt`
defaults to `0`, so the age is the full clock value, above the TTL):
the expired error is set, the request is redirected to `/verify` and
the session is not marked verified, for any submitted answer. -/
theorem processVerify_no_challenge_rejected (hashFn : String → String) (now : Int)
    (userInput : Option String) (s : Session)
    (hnone : s.captchaGeneratedAt = none) (hnow : challengeTTL < now) :
    (processVerify hashFn now userInput s).1.captchaPassed = s.captchaPassed
    ∧ (processVerify hashFn now userInput s).1.captchaPassedAt = s.captchaPassedAt
    ∧ (processVerify hashFn now userInput s).1.captchaError = some expiredMsg
    ∧ (processVerify hashFn now userInput s).2 = Response.redirect "/verify" := by
  have hexp : now - orZero s.captchaGeneratedAt > challengeTTL := by
    rw [hnone]
    simpa [orZero] using hnow
  simp [processVerify, hexp]

/-- Witness for C10 on the fresh session. -/
theorem processVerify_no_challenge_rejected_witness :
    (processVerify hashDemo 1000000 (some "anything") {}).1.captchaPassed = false
    ∧ (processVerify hashDemo 1000000 (some "anything") {}).1.captchaError
        = some expiredMsg
    ∧ (processVerify hashDemo 1000000 (some "anything") {}).2
        = Response.redirect "/verify" := by
  have h := processVerify_no_challenge_rejected hashDemo 1000000 (some "anything") {}
    rfl (by decide)
  exact ⟨h.1, h.2.2.1, h.2.2.2⟩

/-- C3 counterexample: at an age of exactly `verifiedTTL` the claim says
the session passes through unchanged, but `captchaMiddleware` uses a
strict `<` (server.js line 154), so the marker is cleared and the
request redirected. -/
theorem verified_boundary_expires_at_ttl :
    captchaMiddleware (verifiedTTL + 1) { captchaPassed := true, captchaPassedAt := some 1 }
      = ({ captchaPassed := false }, Response.redirect "/verify")
    ∧ captchaMiddleware (verifiedTTL + 1) { captchaPassed := true, captchaPassedAt := some 1 }
      ≠ ({ captchaPassed := true, captchaPassedAt := some 1 }, Response.next) := by
  decide

/-- C3 amended: a verified session (truthy timestamp) passes through
unchanged while `now - verifiedAt < verifiedTTL`; from `verifiedTTL` on
(including exactly `verifiedTTL` and `verifiedTTL + 1`) the marker is
cleared and the request redirected toward the challenge. -/
theorem captchaMiddleware_freshness (now : Int) (s : Session)
    (hver : s.captchaPassed = true) (hts : truthyTime s.captchaPassedAt = true) :
    (now - orZero s.captchaPassedAt < verifiedTTL →
       captchaMiddleware now s = (s, Response.next))
    ∧ (now - orZero s.captchaPassedAt ≥ verifiedTTL →
       captchaMiddleware now s
         = ({ s with captchaPassed := false, captchaPassedAt := none },
            Response.redirect "/verify")) := by
  constructor
  · intro hfresh
    simp [captchaMiddleware, hver, hts, hfresh]
  · intro hold
    simp [captchaMiddleware, hver, hts, Int.not_lt.mpr hold]

/-- Witness for C3 (amended): below the TTL the request passes through;
at exactly the TTL it is invalidated. -/
theorem captchaMiddleware_freshness_witness :
    captchaMiddleware verifiedTTL { captchaPassed := true, captchaPassedAt := some 1 }
      = ({ captchaPassed := true, captchaPassedAt := some 1 }, Response.next)
    ∧ captchaMiddleware (verifiedTTL + 1)
        { captchaPassed := true, captchaPassedAt := some 1 }
      = ({ captchaPassed := false }, Response.redirect "/verify") := by
  constructor
  · exact (captchaMiddleware_freshness verifiedTTL
      { captchaPassed := true, captchaPassedAt := some 1 } rfl rfl).1 (by decide)
  · exact (captchaMiddleware_freshness (verifiedTTL + 1)
      { captchaPassed := true, captchaPassedAt := some 1 } rfl rfl).2 (by decide)

end Captcha

namespace Captcha

/-- C2 counterexample: after a failed (incorrect) submission the session
still holds the stored Challenge — `captchaHash` and
`captchaGeneratedAt` survive (server.js deletes them only in the
success branch, lines 547–549). -/
theorem failed_submission_keeps_challenge :
    (processVerify hashDemo 1000 (some "zzz")
      { captchaHash := some (hashDemo "abc"),
        captchaGeneratedAt := some 0 }).1.captchaHash = some (hashDemo "abc")
    ∧ (processVerify hashDemo 1000 (some "zzz")
        { captchaHash := some (hashDemo "abc"),
          captchaGeneratedAt := some 0 }).1.captchaGeneratedAt = some 0
    ∧ (processVerify hashDemo 1000 (some "zzz")
        { captchaHash := some (hashDemo "abc"),
          captchaGeneratedAt := some 0 }).1.captchaError = some incorrectMsg := by
  decide

/-- C2 amended: a failing submission (expired or digest mismatch) leaves
the stored Challenge in place (`captchaHash` and `captchaGeneratedAt`
are unchanged, not discarded), does not touch the verified marker, sets
`captchaError` to a message that distinguishes the expired from the
incorrect case, and redirects back to the issuance surface; the stale
Challenge is only replaced when the challenge page is next requested. -/
theorem processVerify_failure_behavior (hashFn : String → String) (now : Int)
    (userInput : Option String) (s : Session)
    (hfail : now - orZero s.captchaGeneratedAt > challengeTTL
       ∨ validateWithHash hashFn userInput s.captchaHash = false) :
    (processVerify hashFn now userInput s).1.captchaHash = s.captchaHash
    ∧ (processVerify hashFn now userInput s).1.captchaGeneratedAt = s.captchaGeneratedAt
    ∧ (processVerify hashFn now userInput s).1.captchaPassed = s.captchaPassed
    ∧ (processVerify hashFn now userInput s).1.captchaPassedAt = s.captchaPassedAt
    ∧ (processVerify hashFn now userInput s).2 = Response.redirect "/verify"
    ∧ (processVerify hashFn now userInput s).1.captchaError
        = some (if now - orZero s.captchaGeneratedAt > challengeTTL then expiredMsg
                else incorrectMsg)
    ∧ expiredMsg ≠ incorrectMsg := by
  by_cases hexp : now - orZero s.captchaGeneratedAt > challengeTTL
  · simp [processVerify, hexp]
    decide
  · have hval : validateWithHash hashFn userInput s.captchaHash = false :=
      hfail.resolve_left hexp
    simp [processVerify, hexp, hval]
    decide

/-- Witness for C2 (amended), one failed submission per branch. -/
theorem processVerify_failure_behavior_witness :
    (processVerify hashDemo 1000 (some "zzz")
      { captchaHash := some (hashDemo "abc"),
        captchaGeneratedAt := some 0 }).1.captchaError = some incorrectMsg
    ∧ (processVerify hashDemo (challengeTTL + 5) (some "abc")
        { captchaHash := some (hashDemo "abc"),
          captchaGeneratedAt := some 0 }).1.captchaError = some expiredMsg
    ∧ (processVerify hashDemo 1000 (some "zzz")
        { captchaHash := some (hashDemo "abc"),
          captchaGeneratedAt := some 0 }).1.captchaGeneratedAt = some 0 := by
  have h1 := processVerify_failure_behavior hashDemo 1000 (some "zzz")
    { captchaHash := some (hashDemo "abc"), captchaGeneratedAt := some 0 }
    (Or.inr (by decide))
  have h2 := processVerify_failure_behavior hashDemo (challengeTTL + 5) (some "abc")
    { captchaHash := some (hashDemo "abc"), captchaGeneratedAt := some 0 }
    (Or.inl (by decide))
  refine ⟨?_, ?_, h1.2.1⟩
  · rw [h1.2.2.2.2.2.1]
    decide
  · rw [h2.2.2.2.2.2.1]
    decide

end Captcha

namespace Captcha

/-- C1 counterexample: starting from a session verified by a successful
submission, a `GET /verify` after the verification has expired re-issues
a challenge *without* clearing `captchaPassed`
(`preventVerifyAccessIfVerified` only redirects, it never deletes,
server.js lines 168–188), so the resulting reachable state is verified
and holds Challenge data at once. -/
theorem invariant_violated_on_expired_reissue :
    Inv (processVerify hashDemo 1000 (some "ABC")
          { captchaHash := some (hashDemo "abc"), captchaGeneratedAt := some 1 }).1
    ∧ (processVerify hashDemo 1000 (some "ABC")
          { captchaHash := some (hashDemo "abc"), captchaGeneratedAt := some 1 }).1.captchaPassed
        = true
    ∧ ¬ Inv (getVerify hashDemo (1000 + verifiedTTL) 0 (fun _ => 0)
          (processVerify hashDemo 1000 (some "ABC")
            { captchaHash := some (hashDemo "abc"),
              captchaGeneratedAt := some 1 }).1).1 := by
  decide

/-- C1 amended: the invariant `verified → verifiedAt present ∧ no
Challenge` is preserved by the protected-request check (with and
without the exempt-path wrapper), by submission processing and by the
`originalUrl` capture; challenge issuance preserves it only when the
session is not in the expired-verified corner — a verified session
whose freshness check fails keeps `captchaPassed` while gaining fresh
Challenge data. -/
theorem gate_preserves_invariant (hashFn : String → String) (now : Int)
    (path url : String) (userInput : Option String) (lenDraw : Nat)
    (idxDraw : Nat → Nat) (s : Session) (hInv : Inv s) :
    Inv (captchaMiddleware now s).1
    ∧ Inv (exemptGate now path s).1
    ∧ Inv (processVerify hashFn now userInput s).1
    ∧ Inv (captureOriginalUrl path url s)
    ∧ ((s.captchaPassed = true →
          truthyTime s.captchaPassedAt = true
          ∧ now - orZero s.captchaPassedAt < verifiedTTL) →
        Inv (getVerify hashFn now lenDraw idxDraw s).1) := by
  have hmid : Inv (captchaMiddleware now s).1 := by
    unfold captchaMiddleware
    split
    · split
      · exact hInv
      · simp only [Inv]
        intro h
        simp at h
    · exact hInv
  have hex : Inv (exemptGate now path s).1 := by
    unfold exemptGate
    split
    · exact hInv
    · exact hmid
  have hpv : Inv (processVerify hashFn now userInput s).1 := by
    by_cases hexp : now - orZero s.captchaGeneratedAt > challengeTTL
    · have heq : processVerify hashFn now userInput s
          = ({ s with captchaError := some expiredMsg }, Response.redirect "/verify") := by
        simp [processVerify, hexp]
      rw [heq]
      exact hInv
    · by_cases hval : validateWithHash hashFn userInput s.captchaHash = true
      · have heq : (processVerify hashFn now userInput s).1
            = { s with captchaPassed := true, captchaPassedAt := some now,
                       captchaHash := none, captchaGeneratedAt := none,
                       originalUrl := none } := by
          simp [processVerify, hexp, hval]
        rw [heq]
        simp [Inv]
      · have heq : processVerify hashFn now userInput s
            = ({ s with captchaError := some incorrectMsg }, Response.redirect "/verify") := by
          simp [processVerify, hexp, hval]
        rw [heq]
        exact hInv
  have hcap : Inv (captureOriginalUrl path url s) := by
    unfold captureOriginalUrl
    split
    · exact hInv
    · exact hInv
  refine ⟨hmid, hex, hpv, hcap, ?_⟩
  intro hfresh
  unfold getVerify
  split
  · exact hInv
  · rename_i hcond
    simp only [Inv]
    intro h
    exact absurd (by simp [h, (hfresh h).1, (hfresh h).2]) hcond

/-- Witness for C1 (amended) at a fresh verified session. -/
theorem gate_preserves_invariant_witness :
    Inv (captchaMiddleware 10 { captchaPassed := true, captchaPassedAt := some 5 }).1
    ∧ Inv (getVerify hashDemo 10 0 (fun _ => 0)
        { captchaPassed := true, captchaPassedAt := some 5 }).1 := by
  have h := gate_preserves_invariant hashDemo 10 "/dashboard" "/dashboard"
    (some "x") 0 (fun _ => 0) { captchaPassed := true, captchaPassedAt := some 5 }
    (by decide)
  exact ⟨h.1, h.2.2.2.2 (by decide)⟩

end Captcha

namespace Captcha

/-- C5: the rate limiter is a fixed-window counter — first sight creates
`count = 1, resetAt = now + windowDuration` and allows; a check after
`resetAt` resets and allows; at `count ≥ maxRequests` inside the window
it rejects without incrementing; otherwise it increments and allows.
With `maxRequests = 5` and a 10-unit window, five checks allow, the
sixth rejects, and a check after `resetAt` allows with a fresh window. -/
theorem rateLimiter_fixed_window (maxRequests : Nat) (windowMs : Int) (now : Int)
    (data : RateWindow) :
    (rateCheck maxRequests windowMs now none
       = (some { count := 1, resetAt := now + windowMs }, true))
    ∧ (now > data.resetAt →
        rateCheck maxRequests windowMs now (some data)
          = (some { count := 1, resetAt := now + windowMs }, true))
    ∧ (now ≤ data.resetAt → data.count ≥ maxRequests →
        rateCheck maxRequests windowMs now (some data) = (some data, false))
    ∧ (now ≤ data.resetAt → data.count < maxRequests →
        rateCheck maxRequests windowMs now (some data)
          = (some { data with count := data.count + 1 }, true))
    ∧ (∀ t0 : Int, runChecks 5 10 [t0, t0, t0, t0, t0, t0, t0 + 11] none
        = (some { count := 1, resetAt := t0 + 11 + 10 },
           [true, true, true, true, true, false, true])) := by
  refine ⟨rfl, ?_, ?_, ?_, ?_⟩
  · intro h
    simp [rateCheck, h]
  · intro h hc
    simp [rateCheck, Int.not_lt.mpr h, hc]
  · intro h hc
    simp [rateCheck, Int.not_lt.mpr h, Nat.not_le.mpr hc]
  · intro t0
    simp [runChecks, rateCheck, show ¬ (t0 + 10 < t0) from by omega,
      show (t0 + 10 : Int) < t0 + 11 from by omega]

/-- Witness for C5 at a concrete window. -/
theorem rateLimiter_fixed_window_witness :
    rateCheck 5 10 3 (some { count := 5, resetAt := 10 }) = (some { count := 5, resetAt := 10 }, false)
    ∧ rateCheck 5 10 3 (some { count := 2, resetAt := 10 }) = (some { count := 3, resetAt := 10 }, true)
    ∧ rateCheck 5 10 11 (some { count := 5, resetAt := 10 }) = (some { count := 1, resetAt := 21 }, true)
    ∧ runChecks 5 10 [0, 0, 0, 0, 0, 0, 11] none
        = (some { count := 1, resetAt := 21 }, [true, true, true, true, true, false, true]) := by
  refine ⟨?_, ?_, ?_, ?_⟩
  · exact (rateLimiter_fixed_window 5 10 3 { count := 5, resetAt := 10 }).2.2.1
      (by decide) (by decide)
  · exact (rateLimiter_fixed_window 5 10 3 { count := 2, resetAt := 10 }).2.2.2.1
      (by decide) (by decide)
  · exact (rateLimiter_fixed_window 5 10 11 { count := 5, resetAt := 10 }).2.1 (by decide)
  · have h := (rateLimiter_fixed_window 5 10 0 { count := 1, resetAt := 10 }).2.2.2.2 0
    simpa using h

/-- C7 counterexample: the variant generator of `src/unnamed/part_002`
draws from the full alphabet; the draw picking index 52 yields the
answer `"00000"`, which contains the visually ambiguous `'0'`. -/
theorem variant_generator_contains_ambiguous :
    CaptchaV1.generateCaptcha 0 (fun _ => 52) = "00000"
    ∧ '0' ∈ (CaptchaV1.generateCaptcha 0 (fun _ => 52)).data := by
  decide

/-- C7 amended: every challenge from the main generator
(`server.js` `captchaUtils.generateCaptcha`) has an answer of length
5–7 drawn from the ambiguity-free alphabet (no `0`, `O`, `1`, `l`,
`I`); the variant generator in `part_002` instead draws 5–6 characters
from the full alphabet, which contains the ambiguous characters. -/
theorem generateCaptcha_answer_alphabet (hashFn : String → String)
    (lenDraw : Nat) (idxDraw : Nat → Nat) :
    (5 ≤ (generateCaptcha hashFn lenDraw idxDraw).answer.length
      ∧ (generateCaptcha hashFn lenDraw idxDraw).answer.length ≤ 7
      ∧ ∀ c ∈ (generateCaptcha hashFn lenDraw idxDraw).answer.data,
          c ∈ allChars.data ∧ c ∉ ['0', 'O', '1', 'l', 'I'])
    ∧ (CaptchaV1.generateCaptcha lenDraw idxDraw).length = lenDraw % 2 + 5
    ∧ '0' ∈ CaptchaV1.allChars.data := by
  have hlen : (generateCaptcha hashFn lenDraw idxDraw).answer.length = lenDraw % 3 + 5 := by
    show ((List.range (lenDraw % 3 + 5)).map
      fun i => allChars.data.getD (idxDraw i % allChars.length) 'a').length = lenDraw % 3 + 5
    rw [List.length_map, List.length_range]
  refine ⟨⟨?_, ?_, ?_⟩, ?_, by decide⟩
  · rw [hlen]
    omega
  · rw [hlen]
    omega
  · intro c hc
    simp only [generateCaptcha, List.mem_map, List.mem_range] at hc
    obtain ⟨i, _, rfl⟩ := hc
    have hmem : allChars.data.getD (idxDraw i % allChars.length) 'a' ∈ allChars.data :=
      getD_mem (by decide)
    have hall : ∀ x ∈ allChars.data, x ∉ ['0', 'O', '1', 'l', 'I'] := by decide
    exact ⟨hmem, hall _ hmem⟩
  · show ((List.range (lenDraw % 2 + 5)).map
      fun i => CaptchaV1.allChars.data.getD (idxDraw i % CaptchaV1.allChars.length) 'a').length
        = lenDraw % 2 + 5
    rw [List.length_map, List.length_range]

end Captcha

namespace Captcha

/-- Witness for C7 (amended) at concrete draws. -/
theorem generateCaptcha_answer_alphabet_witness :
    (generateCaptcha hashDemo 0 (fun _ => 0)).answer = "aaaaa"
    ∧ ('a' ∈ allChars.data ∧ 'a' ∉ ['0', 'O', '1', 'l', 'I']) :=
  ⟨by decide,
   (generateCaptcha_answer_alphabet hashDemo 0 (fun _ => 0)).1.2.2 'a' (by decide)⟩

/-- C8 counterexample: the variant route `GET /captcha` of
`src/unnamed/part_001` (line 45) stores the plaintext challenge answer
in the session: after issuance `captchaAnswer` holds the answer text
itself. -/
theorem variant_stores_plaintext_answer :
    (CaptchaV1.getCaptcha 0 (fun _ => 0) {}).captchaAnswer
        = some (CaptchaV1.generateCaptcha 0 (fun _ => 0))
    ∧ (CaptchaV1.getCaptcha 0 (fun _ => 0) {}).captchaAnswer = some "aaaaa" := by
  decide

/-- C8 amended: the main issuance surface (`server.js` `GET /verify`)
persists only the one-way digest of the lowercased answer and the
issuance timestamp — the stored session is a function of the answer
only through its digest, so challenges with equal digests produce
identical session states — while the `part_001` variant stores the
plaintext answer itself. -/
theorem getVerify_stores_only_digest (hashFn : String → String) (now : Int)
    (lenDraw lenDraw' : Nat) (idxDraw idxDraw' : Nat → Nat) (s : Session) :
    (getVerify hashFn now lenDraw idxDraw s
       = if s.captchaPassed && truthyTime s.captchaPassedAt
            && decide (now - orZero s.captchaPassedAt < verifiedTTL)
         then (s, Response.redirect "/")
         else ({ s with
                  captchaHash :=
                    some (hashFn (lower (generateCaptcha hashFn lenDraw idxDraw).answer)),
                  captchaGeneratedAt := some now,
                  captchaError := none },
               Response.page))
    ∧ ((generateCaptcha hashFn lenDraw idxDraw).hash
          = (generateCaptcha hashFn lenDraw' idxDraw').hash →
        getVerify hashFn now lenDraw idxDraw s = getVerify hashFn now lenDraw' idxDraw' s) := by
  constructor
  · rfl
  · intro hh
    simp [getVerify, hh]

/-- Witness for C8 (amended): under a digest function that collides on
two distinct answers, issuance stores identical sessions — only the
digest is persisted. -/
theorem getVerify_stores_only_digest_witness :
    getVerify (fun _ => "h") 7 0 (fun _ => 0) {} = getVerify (fun _ => "h") 7 1 (fun _ => 1) {}
    ∧ (generateCaptcha (fun _ => "h") 0 (fun _ => 0)).answer
        ≠ (generateCaptcha (fun _ => "h") 1 (fun _ => 1)).answer :=
  ⟨(getVerify_stores_only_digest (fun _ => "h") 7 0 1 (fun _ => 0) (fun _ => 1) {}).2 rfl,
   by decide⟩

/-- C9 counterexample: `/favicon.ico` is a well-known static resource
path by the code's own pattern, yet the capture middleware
(server.js lines 564–569) records it into `originalUrl` for an
unverified session — the claim's "static resource paths are never
captured" fails. -/
theorem resource_path_captured :
    isResourcePath "/favicon.ico" = true
    ∧ (captureOriginalUrl "/favicon.ico" "/favicon.ico" {}).originalUrl
        = some "/favicon.ico" := by
  constructor
  · decide
  · decide

/-- C9 amended: for a session without the passed flag the requested URL
is captured iff the path differs from `/verify` and `/process-verify`
(static resource paths are *not* exempt from capture), all other
session fields are untouched, and a successful submission redirects to
the captured URL when present and non-empty, else to `/`, clearing it. -/
theorem capture_and_redirect_behavior (hashFn : String → String) (now : Int)
    (path url : String) (userInput : Option String) (s : Session) :
    ((captureOriginalUrl path url s).originalUrl
       = if !s.captchaPassed && path ≠ "/verify" && path ≠ "/process-verify"
         then some url else s.originalUrl)
    ∧ (captureOriginalUrl path url s).captchaPassed = s.captchaPassed
    ∧ (captureOriginalUrl path url s).captchaPassedAt = s.captchaPassedAt
    ∧ (captureOriginalUrl path url s).captchaHash = s.captchaHash
    ∧ (captureOriginalUrl path url s).captchaGeneratedAt = s.captchaGeneratedAt
    ∧ (captureOriginalUrl path url s).captchaError = s.captchaError
    ∧ (¬ now - orZero s.captchaGeneratedAt > challengeTTL →
       validateWithHash hashFn userInput s.captchaHash = true →
       (processVerify hashFn now userInput s).2
           = Response.redirect (orElseStr s.originalUrl "/")
         ∧ (processVerify hashFn now userInput s).1.originalUrl = none) := by
  refine ⟨?_, ?_, ?_, ?_, ?_, ?_, ?_⟩
  case _ =>
    by_cases h1 : s.captchaPassed
    · simp [captureOriginalUrl, h1]
    · by_cases h2 : path = "/verify"
      · simp [captureOriginalUrl, h1, h2]
      · by_cases h3 : path = "/process-verify" <;> simp [captureOriginalUrl, h1, h2, h3]
  case _ => unfold captureOriginalUrl; split <;> rfl
  case _ => unfold captureOriginalUrl; split <;> rfl
  case _ => unfold captureOriginalUrl; split <;> rfl
  case _ => unfold captureOriginalUrl; split <;> rfl
  case _ => unfold captureOriginalUrl; split <;> rfl
  case _ =>
    intro hage hval
    constructor <;> simp [processVerify, hage, hval]

/-- Witness for C9 (amended): a protected path is captured, and the
following successful submission redirects back to it. -/
theorem capture_and_redirect_behavior_witness :
    (captureOriginalUrl "/dashboard" "/dashboard" {}).originalUrl = some "/dashboard"
    ∧ (processVerify hashDemo 1000 (some "ABC")
        { captchaHash := some (hashDemo "abc"), captchaGeneratedAt := some 1,
          originalUrl := some "/dashboard" }).2 = Response.redirect "/dashboard" := by
  constructor
  · have h := (capture_and_redirect_behavior hashDemo 1000 "/dashboard" "/dashboard"
      (some "x") {}).1
    simpa using h
  · have h := (capture_and_redirect_behavior hashDemo 1000 "/dashboard" "/dashboard"
      (some "ABC")
      { captchaHash := some (hashDemo "abc"), captchaGeneratedAt := some 1,
        originalUrl := some "/dashboard" }).2.2.2.2.2.2 (by decide) (by decide)
    simpa [orElseStr] using h.1

end Captcha
